import Mathlib

/-!
Shallow embedding of the `ReactDOMUnknownPropertyHook` module and the parts of
`DOMProperty` it consumes (files `src/unnamed/part_000` and
`src/src/renderers/dom/shared/DOMProperty.js`).

Modelling conventions:
* JavaScript strings are `String`; `name.toLowerCase()` is `String.toLower`
  (identical on the ASCII names involved).
* A plain `{}` object used as a dictionary whose stored values are all `true`
  (`warnedProperties`) is modelled by its list of own keys, together with the
  two relevant JavaScript behaviours:
  - calling `obj.hasOwnProperty(k)` after an own key `"hasOwnProperty"` has
    been stored (shadowing `Object.prototype.hasOwnProperty` with the value
    `true`) throws a `TypeError`;
  - the assignment `obj["__proto__"] = true` goes through the inherited
    `__proto__` setter and creates no own key (a silent no-op).
* The property bag passed by the application is a finite association list
  `List (String × JSValue)`; `for (var key in props)` iterates its keys in
  order, and `props.is` is a lookup defaulting to `undefined`.
* The external `EventPluginRegistry` module (not part of this repository
  excerpt) is a parameter: its `registrationNameModules` is abstracted to its
  key set and `possibleRegistrationNames` to an association list.
* A call to the external `warning(false, format, ...)` sink is recorded as a
  `Warning` value carrying the data interpolated into the format string; the
  stack-addendum argument (external display-only hook) is elided.
* Module-level bindings that are mutable in JavaScript and mentioned by the
  frame-condition claims (`warnedProperties`, `DOMProperty.properties`,
  `RESERVED_PROPS`) live in a `ValidatorState` record threaded through the
  functions; `initialState` holds their initial values.
-/

/-- A JavaScript runtime error; the only one this code can raise is the
`TypeError` from calling a shadowed `hasOwnProperty`. -/
inductive JSError where
  | typeError
deriving DecidableEq, Repr

/-- A JavaScript value, as far as truthiness is concerned. -/
inductive JSValue where
  | undefinedV
  | nullV
  | boolV (b : Bool)
  | numV (n : Int)
  | strV (s : String)
  | objV
deriving DecidableEq, Repr

/-- JavaScript truthiness of a value (`if (v)`). -/
def truthy : JSValue → Bool
  | .undefinedV => false
  | .nullV => false
  | .boolV b => b
  | .numV n => !(n == 0)
  | .strV s => !(s == "")
  | .objV => true

/-- Association-list lookup modelling `obj.hasOwnProperty(k) ? obj[k] : null`
on a string-valued object literal that is never written after initialization. -/
def jsLookup : List (String × String) → String → Option String
  | [], _ => none
  | (k, v) :: rest, key => if k == key then some v else jsLookup rest key

/-- Lookup of `props[k]` on the application-supplied property bag; a missing
key reads as `undefined`. -/
def propsGet : List (String × JSValue) → String → JSValue
  | [], _ => .undefinedV
  | (k, v) :: rest, key => if k == key then v else propsGet rest key

/-- The assignment `dict[k] = true` on a plain `{}` dictionary, modelled on
its own-key list: assigning to `"__proto__"` invokes the inherited setter with
a non-object value and creates no own key. -/
def setKey (keys : List String) (k : String) : List String :=
  if k == "__proto__" then keys
  else if keys.contains k then keys
  else keys ++ [k]

/-- The call `dict.hasOwnProperty(k)` on a plain `{}` dictionary whose stored
values are all `true`: once an own key `"hasOwnProperty"` exists, the member
lookup finds the stored `true` and the call throws a `TypeError`. -/
def callHasOwnProperty (keys : List String) (k : String) :
    Except JSError Bool :=
  if keys.contains "hasOwnProperty" then .error .typeError
  else .ok (keys.contains k)

/-- One message sent to the external `warning` sink, carrying the interpolated
data (the stack addendum is elided). -/
inductive Warning where
  /-- The message `Unknown event handler property %s. Did you mean ...?`. -/
  | unknownEventHandler (name suggestion : String)
  /-- The message `Unknown DOM property %s. Did you mean %s?`. -/
  | unknownDOMProperty (name standardName : String)
  /-- The message `Unknown prop %s on <%s> tag. Remove this prop ...`. -/
  | unknownPropSingle (propString : String) (names : List String) (type : String)
  /-- The message `Unknown props %s on <%s> tag. Remove these props ...`. -/
  | unknownPropsPlural (propString : String) (names : List String) (type : String)
deriving DecidableEq, Repr

/-- The property names a warning message denounces as unknown or mistyped
(suggested replacement names are not offenders). -/
def Warning.offenders : Warning → List String
  | .unknownEventHandler name _ => [name]
  | .unknownDOMProperty name _ => [name]
  | .unknownPropSingle _ names _ => names
  | .unknownPropsPlural _ names _ => names

/-- How many warnings in a list denounce the property name `n`. -/
def offenderCount (n : String) : List Warning → Nat
  | [] => 0
  | w :: rest => (if w.offenders.contains n then 1 else 0) + offenderCount n rest

/-- The external `EventPluginRegistry` module, abstracted to the data the hook
reads: the key set of `registrationNameModules` and the association list
`possibleRegistrationNames` (lowercase name to correctly-cased name). -/
structure EventRegistry where
  registrationNameModules : List String
  possibleRegistrationNames : List (String × String)
deriving DecidableEq, Repr

/-- A small concrete registry used to instantiate witnesses. -/
def sampleEnv : EventRegistry :=
  { registrationNameModules := ["onClick"]
    possibleRegistrationNames := [("onclick", "onClick")] }

namespace DOMProperty

/-- The `RESERVED_PROPS` object literal of `DOMProperty.js` (its own keys; the
stored values are all `true`). -/
def RESERVED_PROPS : List String :=
  ["children", "dangerouslySetInnerHTML", "key", "ref",
   "autoFocus", "defaultValue", "defaultChecked", "innerHTML",
   "suppressContentEditableWarning", "onFocusIn", "onFocusOut"]

/-- Membership test behind `isReservedProp`, abstracted over the reserved
list so that the stateful validator can read the list from its state. -/
def isReservedPropIn (reserved : List String) (name : String) : Bool :=
  reserved.contains name

/-- `DOMProperty.isReservedProp(name)`, i.e.
`RESERVED_PROPS.hasOwnProperty(name)` (the literal has no own
`hasOwnProperty` key and is never written, so this is plain own-key
membership, never throwing and ignoring inherited members). -/
def isReservedProp (name : String) : Bool :=
  isReservedPropIn RESERVED_PROPS name

end DOMProperty

/-- The metadata record stored for one canonical property name in
`DOMProperty.properties`. Omitted JavaScript fields read as `undefined`
(falsy), so absent flags default to `false`; the one `mutationMethod`
function (on `value`) manipulates live DOM nodes and is modelled as a
presence flag. -/
structure PropertyInfo where
  attributeName : String
  attributeNamespace : Option String := none
  mustUseProperty : Bool := false
  hasBooleanValue : Bool := false
  hasNumericValue : Bool := false
  hasPositiveNumericValue : Bool := false
  hasOverloadedBooleanValue : Bool := false
  hasMutationMethod : Bool := false
deriving DecidableEq, Repr

/-- Chunk 0 of the `DOMProperty.properties` entries, in source order. -/
def DOMProperty.propertiesPart0 : List (String × PropertyInfo) :=
  [
   ("acceptCharset", { attributeName := "accept-charset" }),
   ("allowFullScreen", { attributeName := "allowfullscreen", hasBooleanValue := true }),
   ("async", { attributeName := "async", hasBooleanValue := true }),
   ("autoPlay", { attributeName := "autoplay", hasBooleanValue := true }),
   ("capture", { attributeName := "capture", hasBooleanValue := true }),
   ("checked", { attributeName := "checked", mustUseProperty := true, hasBooleanValue := true }),
   ("className", { attributeName := "class" }),
   ("cols", { attributeName := "cols", hasNumericValue := true }),
   ("controls", { attributeName := "controls", hasBooleanValue := true }),
   ("default", { attributeName := "default", hasBooleanValue := true }),
   ("defer", { attributeName := "defer", hasBooleanValue := true }),
   ("disabled", { attributeName := "disabled", hasBooleanValue := true }),
   ("download", { attributeName := "download", hasOverloadedBooleanValue := true }),
   ("formNoValidate", { attributeName := "formnovalidate", hasBooleanValue := true }),
   ("hidden", { attributeName := "hidden", hasBooleanValue := true }),
   ("htmlFor", { attributeName := "for" }),
   ("httpEquiv", { attributeName := "http-equiv" }),
   ("loop", { attributeName := "loop", hasBooleanValue := true }),
   ("multiple", { attributeName := "multiple", mustUseProperty := true, hasBooleanValue := true }),
   ("muted", { attributeName := "muted", mustUseProperty := true, hasBooleanValue := true }),
   ("noValidate", { attributeName := "novalidate", hasBooleanValue := true }),
   ("open", { attributeName := "open", hasBooleanValue := true }),
   ("playsInline", { attributeName := "playsinline", hasBooleanValue := true }),
   ("readOnly", { attributeName := "readonly", hasBooleanValue := true }),
   ("required", { attributeName := "required", hasBooleanValue := true }),
   ("reversed", { attributeName := "reversed", hasBooleanValue := true }),
   ("rows", { attributeName := "rows", hasNumericValue := true, hasPositiveNumericValue := true }),
   ("rowSpan", { attributeName := "rowspan", hasNumericValue := true }),
   ("scoped", { attributeName := "scoped", hasBooleanValue := true }),
   ("seamless", { attributeName := "seamless", hasBooleanValue := true }),
   ("selected", { attributeName := "selected", mustUseProperty := true, hasBooleanValue := true })]

/-- Chunk 1 of the `DOMProperty.properties` entries, in source order. -/
def DOMProperty.propertiesPart1 : List (String × PropertyInfo) :=
  [
   ("size", { attributeName := "size", hasNumericValue := true, hasPositiveNumericValue := true }),
   ("span", { attributeName := "span", hasNumericValue := true, hasPositiveNumericValue := true }),
   ("start", { attributeName := "start", hasNumericValue := true }),
   ("itemScope", { attributeName := "itemscope", hasBooleanValue := true }),
   ("value", { attributeName := "value", hasMutationMethod := true }),
   ("accentHeight", { attributeName := "accent-height" }),
   ("alignmentBaseline", { attributeName := "alignment-baseline" }),
   ("arabicForm", { attributeName := "arabic-form" }),
   ("baselineShift", { attributeName := "baseline-shift" }),
   ("capHeight", { attributeName := "cap-height" }),
   ("clipPath", { attributeName := "clip-path" }),
   ("clipRule", { attributeName := "clip-rule" }),
   ("colorInterpolation", { attributeName := "color-interpolation" }),
   ("colorInterpolationFilters", { attributeName := "color-interpolation-filters" }),
   ("colorProfile", { attributeName := "color-profile" }),
   ("colorRendering", { attributeName := "color-rendering" }),
   ("dominantBaseline", { attributeName := "dominant-baseline" }),
   ("enableBackground", { attributeName := "enable-background" }),
   ("fillOpacity", { attributeName := "fill-opacity" }),
   ("fillRule", { attributeName := "fill-rule" }),
   ("filterRes", { attributeName := "filterRes" }),
   ("filterUnits", { attributeName := "filterUnits" }),
   ("floodColor", { attributeName := "flood-color" }),
   ("floodOpacity", { attributeName := "flood-opacity" }),
   ("fontFamily", { attributeName := "font-family" }),
   ("fontSize", { attributeName := "font-size" }),
   ("fontSizeAdjust", { attributeName := "font-size-adjust" }),
   ("fontStretch", { attributeName := "font-stretch" }),
   ("fontStyle", { attributeName := "font-style" }),
   ("fontVariant", { attributeName := "font-variant" }),
   ("fontWeight", { attributeName := "font-weight" })]

/-- Chunk 2 of the `DOMProperty.properties` entries, in source order. -/
def DOMProperty.propertiesPart2 : List (String × PropertyInfo) :=
  [
   ("glyphName", { attributeName := "glyph-name" }),
   ("glyphOrientationHorizontal", { attributeName := "glyph-orientation-horizontal" }),
   ("glyphOrientationVertical", { attributeName := "glyph-orientation-vertical" }),
   ("glyphRef", { attributeName := "glyphRef" }),
   ("horizAdvX", { attributeName := "horiz-adv-x" }),
   ("horizOriginX", { attributeName := "horiz-origin-x" }),
   ("imageRendering", { attributeName := "image-rendering" }),
   ("letterSpacing", { attributeName := "letter-spacing" }),
   ("lightingColor", { attributeName := "lighting-color" }),
   ("markerEnd", { attributeName := "marker-end" }),
   ("markerMid", { attributeName := "marker-mid" }),
   ("markerStart", { attributeName := "marker-start" }),
   ("overlinePosition", { attributeName := "overline-position" }),
   ("overlineThickness", { attributeName := "overline-thickness" }),
   ("paintOrder", { attributeName := "paint-order" }),
   ("panose1", { attributeName := "panose-1" }),
   ("pointerEvents", { attributeName := "pointer-events" }),
   ("renderingIntent", { attributeName := "rendering-intent" }),
   ("shapeRendering", { attributeName := "shape-rendering" }),
   ("stopColor", { attributeName := "stop-color" }),
   ("stopOpacity", { attributeName := "stop-opacity" }),
   ("strikethroughPosition", { attributeName := "strikethrough-position" }),
   ("strikethroughThickness", { attributeName := "strikethrough-thickness" }),
   ("strokeDasharray", { attributeName := "stroke-dasharray" }),
   ("strokeDashoffset", { attributeName := "stroke-dashoffset" }),
   ("strokeLinecap", { attributeName := "stroke-linecap" }),
   ("strokeLinejoin", { attributeName := "stroke-linejoin" }),
   ("strokeMiterlimit", { attributeName := "stroke-miterlimit" }),
   ("strokeOpacity", { attributeName := "stroke-opacity" }),
   ("strokeWidth", { attributeName := "stroke-width" }),
   ("textAnchor", { attributeName := "text-anchor" })]

/-- Chunk 3 of the `DOMProperty.properties` entries, in source order. -/
def DOMProperty.propertiesPart3 : List (String × PropertyInfo) :=
  [
   ("textDecoration", { attributeName := "text-decoration" }),
   ("textRendering", { attributeName := "text-rendering" }),
   ("underlinePosition", { attributeName := "underline-position" }),
   ("underlineThickness", { attributeName := "underline-thickness" }),
   ("unicodeBidi", { attributeName := "unicode-bidi" }),
   ("unicodeRange", { attributeName := "unicode-range" }),
   ("unitsPerEm", { attributeName := "units-per-em" }),
   ("vAlphabetic", { attributeName := "v-alphabetic" }),
   ("vHanging", { attributeName := "v-hanging" }),
   ("vIdeographic", { attributeName := "v-ideographic" }),
   ("vMathematical", { attributeName := "v-mathematical" }),
   ("vectorEffect", { attributeName := "vector-effect" }),
   ("vertAdvY", { attributeName := "vert-adv-y" }),
   ("vertOriginX", { attributeName := "vert-origin-x" }),
   ("vertOriginY", { attributeName := "vert-origin-y" }),
   ("wordSpacing", { attributeName := "word-spacing" }),
   ("writingMode", { attributeName := "writing-mode" }),
   ("xHeight", { attributeName := "x-height" }),
   ("xlinkActuate", { attributeName := "xlink:actuate", attributeNamespace := some "http://www.w3.org/1999/xlink" }),
   ("xlinkArcrole", { attributeName := "xlink:arcrole", attributeNamespace := some "http://www.w3.org/1999/xlink" }),
   ("xlinkHref", { attributeName := "xlink:href", attributeNamespace := some "http://www.w3.org/1999/xlink" }),
   ("xlinkRole", { attributeName := "xlink:role", attributeNamespace := some "http://www.w3.org/1999/xlink" }),
   ("xlinkShow", { attributeName := "xlink:show", attributeNamespace := some "http://www.w3.org/1999/xlink" }),
   ("xlinkTitle", { attributeName := "xlink:title", attributeNamespace := some "http://www.w3.org/1999/xlink" }),
   ("xlinkType", { attributeName := "xlink:type", attributeNamespace := some "http://www.w3.org/1999/xlink" }),
   ("xmlBase", { attributeName := "xml:base", attributeNamespace := some "http://www.w3.org/XML/1998/namespace" }),
   ("xmlnsXlink", { attributeName := "xmlns:xlink" }),
   ("xmlLang", { attributeName := "xml:lang", attributeNamespace := some "http://www.w3.org/XML/1998/namespace" }),
   ("xmlSpace", { attributeName := "xml:space", attributeNamespace := some "http://www.w3.org/XML/1998/namespace" })]

/-- The `DOMProperty.properties` registry object of `DOMProperty.js`
(lines 83-536), as an association list in source order (split into four
chunks only to keep elaboration cheap). -/
def DOMProperty.properties : List (String × PropertyInfo) :=
  DOMProperty.propertiesPart0 ++ DOMProperty.propertiesPart1 ++
  DOMProperty.propertiesPart2 ++ DOMProperty.propertiesPart3

/-- The module-level mutable bindings the claims talk about: the hook's
`warnedProperties` dictionary (its own-key list; every stored value is
`true`), and the `RESERVED_PROPS` and `DOMProperty.properties` tables of
`DOMProperty.js`, which the code reads but never writes. -/
structure ValidatorState where
  warnedProperties : List String
  reservedProps : List String
  properties : List (String × PropertyInfo)
deriving DecidableEq, Repr

/-- The state at module initialization: empty warned cache, the two
`DOMProperty` tables at their literal values. -/
def initialState : ValidatorState :=
  { warnedProperties := []
    reservedProps := DOMProperty.RESERVED_PROPS
    properties := DOMProperty.properties }

/-- A state whose warned cache already holds the name `id`; used to
instantiate witnesses of theorems that hypothesize a cached name. -/
def exampleState : ValidatorState :=
  { warnedProperties := ["id"]
    reservedProps := DOMProperty.RESERVED_PROPS
    properties := DOMProperty.properties }

/-- The descriptor stored under `rows` in `DOMProperty.properties`; used to
instantiate the witness of the registry-flag claim. -/
def rowsInfo : PropertyInfo :=
  { attributeName := "rows"
    hasNumericValue := true
    hasPositiveNumericValue := true }

/-- The hook's `possibleStandardNames` table. It holds exactly the five
hard-coded aliases: the loop `for (var key in DOMProperty.attributeName)`
that was meant to extend it iterates over `DOMProperty.attributeName`, a
field that does not exist on the `DOMProperty` export (the registry is
`DOMProperty.properties`; `attributeName` is only a field of each
descriptor), and a `for...in` over `undefined` performs zero iterations. -/
def possibleStandardNames : List (String × String) :=
  [("autofocus", "autoFocus"),
   ("class", "className"),
   ("for", "htmlFor"),
   ("accept-charset", "acceptCharset"),
   ("http-equiv", "httpEquiv")]

deriving instance DecidableEq for Except

/-- JavaScript `name.toLowerCase()`: per-character lowercasing (written over
`String.data` so the kernel can evaluate it; it agrees with
`String.toLower` and with JavaScript on the ASCII names involved). -/
def jsToLower (s : String) : String := ⟨s.data.map Char.toLower⟩

/-- Result of one `validateProperty` call: the returned boolean (or the
thrown error), the warnings emitted during the call, and the state after it. -/
structure VPResult where
  result : Except JSError Bool
  warnings : List Warning
  state : ValidatorState
deriving DecidableEq, Repr

/-- The hook's `validateProperty(tagName, name, debugID)` (lines 51-104 of
`src/unnamed/part_000`); `debugID` only feeds the elided stack addendum.
Control flow mirrors the source: the cache check (which throws once the
cache holds an own `hasOwnProperty` key), the unconditional
`warnedProperties[name] = true`, the two event-registry checks, then the
`possibleStandardNames` check via `hasBadCasing`; the final
`return DOMProperty.isReservedProp(name)` is kept even though it is
unreachable (`hasBadCasing` implies `standardName != null`). -/
def validateProperty (env : EventRegistry) (tagName name : String)
    (st : ValidatorState) : VPResult :=
  let lowerCasedName := jsToLower name
  match callHasOwnProperty st.warnedProperties name with
  | .error e => ⟨.error e, [], st⟩
  | .ok true => ⟨.ok true, [], st⟩
  | .ok false =>
    let st1 := { st with warnedProperties := setKey st.warnedProperties name }
    if env.registrationNameModules.contains name then
      ⟨.ok true, [], st1⟩
    else
      match jsLookup env.possibleRegistrationNames lowerCasedName with
      | some registrationName =>
        ⟨.ok true, [.unknownEventHandler name registrationName], st1⟩
      | none =>
        let standardName := jsLookup possibleStandardNames name
        let hasBadCasing := standardName.isSome && !(standardName == some name)
        if !hasBadCasing then
          ⟨.ok true, [], st1⟩
        else
          match standardName with
          | some sn => ⟨.ok true, [.unknownDOMProperty name sn], st1⟩
          | none =>
            ⟨.ok (DOMProperty.isReservedPropIn st.reservedProps name), [], st1⟩

/-- Result of the key-scanning loop of `warnUnknownProperties`: the collected
invalid keys, whether the loop finished or a call threw, the warnings
emitted, and the state reached. -/
structure ScanResult where
  unknownProps : List String
  outcome : Except JSError Unit
  warnings : List Warning
  state : ValidatorState
deriving DecidableEq, Repr

/-- The `for (var key in props)` loop of `warnUnknownProperties` (lines
108-114): validate each key in order, collecting keys for which
`validateProperty` returned `false`; a thrown error aborts the loop but the
warnings already emitted and the state mutations already made persist. -/
def scanProps (env : EventRegistry) (type : String) :
    List (String × JSValue) → ValidatorState → ScanResult
  | [], st => ⟨[], .ok (), [], st⟩
  | (key, _) :: rest, st =>
    match validateProperty env type key st with
    | ⟨.error e, ws, st'⟩ => ⟨[], .error e, ws, st'⟩
    | ⟨.ok isValid, ws, st'⟩ =>
      let r := scanProps env type rest st'
      ⟨if isValid then r.unknownProps else key :: r.unknownProps,
       r.outcome, ws ++ r.warnings, r.state⟩

/-- The string interpolated into the combined warning:
each collected prop in backquotes, joined by a comma and a space. -/
def unknownPropString (unknownProps : List String) : String :=
  String.intercalate ", " (unknownProps.map fun prop => "`" ++ prop ++ "`")

/-- Result of `warnUnknownProperties` / `validateProperties`: normal return
or thrown error, warnings emitted, state reached. -/
structure VResult where
  outcome : Except JSError Unit
  warnings : List Warning
  state : ValidatorState
deriving DecidableEq, Repr

/-- The hook's `warnUnknownProperties(type, props, debugID)` (lines 107-137):
scan all keys, then emit the single combined message — singular wording when
exactly one unknown prop was collected, plural wording when more than one,
nothing when none. -/
def warnUnknownProperties (env : EventRegistry) (type : String)
    (props : List (String × JSValue)) (st : ValidatorState) : VResult :=
  let r := scanProps env type props st
  match r.outcome with
  | .error e => ⟨.error e, r.warnings, r.state⟩
  | .ok () =>
    if r.unknownProps.length == 1 then
      ⟨.ok (), r.warnings ++
        [.unknownPropSingle (unknownPropString r.unknownProps) r.unknownProps type],
       r.state⟩
    else if r.unknownProps.length > 1 then
      ⟨.ok (), r.warnings ++
        [.unknownPropsPlural (unknownPropString r.unknownProps) r.unknownProps type],
       r.state⟩
    else ⟨.ok (), r.warnings, r.state⟩

/-- JavaScript `type.indexOf('-') >= 0`: whether the tag name contains a
hyphen character (written over `String.data` so the kernel can evaluate it). -/
def hasHyphen (s : String) : Bool := s.data.contains '-'

/-- The hook's `validateProperties(type, props, debugID)` (lines 139-144):
skip everything when the tag name contains a hyphen
(`type.indexOf('-') >= 0`) or the bag's `is` property is truthy
(`props.is`); otherwise run `warnUnknownProperties`. -/
def validateProperties (env : EventRegistry) (type : String)
    (props : List (String × JSValue)) (st : ValidatorState) : VResult :=
  if hasHyphen type || truthy (propsGet props "is") then
    ⟨.ok (), [], st⟩
  else warnUnknownProperties env type props st

/-- A sequence of top-level `validateProperties` calls, each given a tag name
and a property bag. A thrown error aborts only the call that raised it
(warnings printed to the console before it persist); later calls still run. -/
def runCalls (env : EventRegistry) :
    List (String × List (String × JSValue)) → ValidatorState →
      List Warning × ValidatorState
  | [], st => ([], st)
  | (type, props) :: rest, st =>
    let r := validateProperties env type props st
    let (ws, st') := runCalls env rest r.state
    (r.warnings ++ ws, st')

/-! Helper lemmas about the JavaScript dictionary model. -/

theorem setKey_mono {keys : List String} {m : String} (k : String)
    (h : m ∈ keys) : m ∈ setKey keys k := by
  unfold setKey
  split
  · exact h
  · split
    · exact h
    · exact List.mem_append_left _ h

theorem setKey_self {k : String} (keys : List String)
    (hk : k ≠ "__proto__") : k ∈ setKey keys k := by
  unfold setKey
  split
  · simp_all
  · split
    · simp_all
    · exact List.mem_append_right _ (List.mem_singleton.mpr rfl)

theorem offenderCount_append (n : String) (a b : List Warning) :
    offenderCount n (a ++ b) = offenderCount n a + offenderCount n b := by
  induction a with
  | nil => simp [offenderCount]
  | cons w rest ih => simp [offenderCount, ih]; omega

/-- Exhaustive normal form of `validateProperty`: the same function with the
`Except` plumbing resolved and the unreachable final
`return DOMProperty.isReservedProp(name)` branch eliminated (it would require
`hasBadCasing` with `standardName == null`, which is contradictory). -/
theorem validateProperty_eq (env : EventRegistry) (t n : String) (st : ValidatorState) :
    validateProperty env t n st =
      (if "hasOwnProperty" ∈ st.warnedProperties then ⟨.error .typeError, [], st⟩
       else if n ∈ st.warnedProperties then ⟨.ok true, [], st⟩
       else if n ∈ env.registrationNameModules then
         ⟨.ok true, [], { st with warnedProperties := setKey st.warnedProperties n }⟩
       else
         match jsLookup env.possibleRegistrationNames (jsToLower n) with
         | some r =>
           ⟨.ok true, [.unknownEventHandler n r],
            { st with warnedProperties := setKey st.warnedProperties n }⟩
         | none =>
           match jsLookup possibleStandardNames n with
           | some sn =>
             if sn = n then
               ⟨.ok true, [], { st with warnedProperties := setKey st.warnedProperties n }⟩
             else
               ⟨.ok true, [.unknownDOMProperty n sn],
                { st with warnedProperties := setKey st.warnedProperties n }⟩
           | none =>
             ⟨.ok true, [], { st with warnedProperties := setKey st.warnedProperties n }⟩) := by
  unfold validateProperty callHasOwnProperty
  by_cases h1 : "hasOwnProperty" ∈ st.warnedProperties
  · simp [h1]
  · by_cases h2 : n ∈ st.warnedProperties
    · simp [h1, h2]
    · by_cases h3 : n ∈ env.registrationNameModules
      · simp [h1, h2, h3]
      · cases hl : jsLookup env.possibleRegistrationNames (jsToLower n) with
        | some r => simp [h1, h2, h3, hl]
        | none =>
          cases hs : jsLookup possibleStandardNames n with
          | some sn =>
            by_cases h4 : sn = n
            · simp [h1, h2, h3, hl, hs, h4]
            · simp [h1, h2, h3, hl, hs, h4]
          | none => simp [h1, h2, h3, hl, hs]

/-! Derived lemmas used by the claim theorems. -/


theorem validateProperty_result_ok (env : EventRegistry) (t n : String) (st : ValidatorState) :
    (validateProperty env t n st).result = .ok true ∨
    (validateProperty env t n st).result = .error .typeError := by
  rw [validateProperty_eq]
  repeat' split
  all_goals simp

theorem validateProperty_frame (env : EventRegistry) (t n : String) (st : ValidatorState) :
    (validateProperty env t n st).state.reservedProps = st.reservedProps ∧
    (validateProperty env t n st).state.properties = st.properties := by
  rw [validateProperty_eq]
  repeat' split
  all_goals simp

theorem validateProperty_warned_mono (env : EventRegistry) (t n : String)
    (st : ValidatorState) (m : String) (h : m ∈ st.warnedProperties) :
    m ∈ (validateProperty env t n st).state.warnedProperties := by
  rw [validateProperty_eq]
  repeat' split
  all_goals first
    | exact h
    | exact setKey_mono _ h

theorem validateProperty_cached (env : EventRegistry) (t n : String)
    (st : ValidatorState) (h : n ∈ st.warnedProperties)
    (hh : "hasOwnProperty" ∉ st.warnedProperties) :
    validateProperty env t n st = ⟨.ok true, [], st⟩ := by
  rw [validateProperty_eq]
  simp [h, hh]

theorem validateProperty_cached_nowarn (env : EventRegistry) (t n : String)
    (st : ValidatorState) (h : n ∈ st.warnedProperties) :
    (validateProperty env t n st).warnings = [] := by
  rw [validateProperty_eq]
  by_cases hh : "hasOwnProperty" ∈ st.warnedProperties
  · simp [h, hh]
  · simp [h, hh]

theorem validateProperty_records (env : EventRegistry) (t n : String)
    (st : ValidatorState) (hn : n ≠ "__proto__") (b : Bool)
    (h : (validateProperty env t n st).result = .ok b) :
    n ∈ (validateProperty env t n st).state.warnedProperties := by
  rw [validateProperty_eq] at h ⊢
  by_cases h1 : "hasOwnProperty" ∈ st.warnedProperties
  · simp [h1] at h
  · by_cases h2 : n ∈ st.warnedProperties
    · simp [h1, h2]
    · simp only [h1, h2, if_false, if_true, if_neg, if_pos]
      repeat' split
      all_goals exact setKey_self _ hn

theorem validateProperty_offenders (env : EventRegistry) (t n : String)
    (st : ValidatorState) (w : Warning)
    (hw : w ∈ (validateProperty env t n st).warnings) :
    w.offenders = [n] := by
  rw [validateProperty_eq] at hw
  repeat' split at hw
  all_goals simp_all [Warning.offenders]

theorem validateProperty_warnings_len (env : EventRegistry) (t n : String)
    (st : ValidatorState) :
    (validateProperty env t n st).warnings.length ≤ 1 := by
  rw [validateProperty_eq]
  repeat' split
  all_goals simp


theorem offenderCount_le_length (n : String) (ws : List Warning) :
    offenderCount n ws ≤ ws.length := by
  induction ws with
  | nil => simp [offenderCount]
  | cons w rest ih =>
    simp [offenderCount]
    split <;> omega

theorem offenderCount_zero_of_offenders {n m : String} (hmn : m ≠ n)
    {ws : List Warning} (h : ∀ w ∈ ws, w.offenders = [m]) :
    offenderCount n ws = 0 := by
  induction ws with
  | nil => simp [offenderCount]
  | cons w rest ih =>
    have hw := h w (List.mem_cons_self _ _)
    simp [offenderCount, hw, hmn]
    exact ⟨fun hh => hmn hh.symm, ih fun w' hw' => h w' (List.mem_cons_of_mem _ hw')⟩

theorem validateProperty_warned_state (env : EventRegistry) (t m : String)
    (st : ValidatorState) :
    (validateProperty env t m st).warnings ≠ [] →
      (validateProperty env t m st).state =
        { st with warnedProperties := setKey st.warnedProperties m } := by
  rw [validateProperty_eq]
  repeat' split
  all_goals simp

theorem validateProperty_count_bound (env : EventRegistry) (t m n : String)
    (st : ValidatorState) (hn : n ≠ "__proto__") :
    offenderCount n (validateProperty env t m st).warnings ≤
        (if n ∈ st.warnedProperties then 0 else 1) ∧
    (1 ≤ offenderCount n (validateProperty env t m st).warnings →
        n ∈ (validateProperty env t m st).state.warnedProperties) := by
  by_cases hmn : m = n
  · subst hmn
    by_cases h2 : m ∈ st.warnedProperties
    · have hw := validateProperty_cached_nowarn env t m st h2
      rw [hw]
      simp [offenderCount, h2]
    · constructor
      · have hlen := validateProperty_warnings_len env t m st
        have hc := offenderCount_le_length m (validateProperty env t m st).warnings
        simp [h2]
        omega
      · intro hc
        have hne : (validateProperty env t m st).warnings ≠ [] := by
          intro hnil
          rw [hnil] at hc
          simp [offenderCount] at hc
        have hst := validateProperty_warned_state env t m st hne
        rw [hst]
        exact setKey_self _ hn
  · constructor
    · have h0 : offenderCount n (validateProperty env t m st).warnings = 0 :=
        offenderCount_zero_of_offenders hmn
          (fun w hw => validateProperty_offenders env t m st w hw)
      simp [h0]
    · intro hc
      have h0 : offenderCount n (validateProperty env t m st).warnings = 0 :=
        offenderCount_zero_of_offenders hmn
          (fun w hw => validateProperty_offenders env t m st w hw)
      omega

theorem validateProperty_proto_nowarn (env : EventRegistry) (t : String)
    (st : ValidatorState)
    (hp : jsLookup env.possibleRegistrationNames "__proto__" = none) :
    (validateProperty env t "__proto__" st).warnings = [] := by
  have hlow : jsToLower "__proto__" = "__proto__" := by decide
  have hs : jsLookup possibleStandardNames "__proto__" = none := by decide
  rw [validateProperty_eq]
  simp only [hlow, hp, hs]
  repeat' split
  all_goals simp_all


theorem scanProps_unknown_nil (env : EventRegistry) (t : String) :
    ∀ (props : List (String × JSValue)) (st : ValidatorState),
      (scanProps env t props st).unknownProps = [] := by
  intro props
  induction props with
  | nil => intro st; simp [scanProps]
  | cons p rest ih =>
    intro st
    obtain ⟨key, v⟩ := p
    unfold scanProps
    split
    · rfl
    · next isValid ws st' heq =>
      have hok := validateProperty_result_ok env t key st
      rw [heq] at hok
      simp at hok
      simp [hok, ih st']

theorem scanProps_frame (env : EventRegistry) (t : String) :
    ∀ (props : List (String × JSValue)) (st : ValidatorState),
      (scanProps env t props st).state.reservedProps = st.reservedProps ∧
      (scanProps env t props st).state.properties = st.properties := by
  intro props
  induction props with
  | nil => intro st; simp [scanProps]
  | cons p rest ih =>
    intro st
    obtain ⟨key, v⟩ := p
    have hf := validateProperty_frame env t key st
    unfold scanProps
    split
    · next e ws st' heq =>
      rw [heq] at hf
      simpa using hf
    · next isValid ws st' heq =>
      rw [heq] at hf
      simp at hf ⊢
      obtain ⟨ihr1, ihr2⟩ := ih st'
      rw [ihr1, ihr2, hf.1, hf.2]
      exact ⟨rfl, rfl⟩

theorem scanProps_warned_mono (env : EventRegistry) (t : String) :
    ∀ (props : List (String × JSValue)) (st : ValidatorState) (m : String),
      m ∈ st.warnedProperties →
      m ∈ (scanProps env t props st).state.warnedProperties := by
  intro props
  induction props with
  | nil => intro st m h; simpa [scanProps] using h
  | cons p rest ih =>
    intro st m h
    obtain ⟨key, v⟩ := p
    have hm := validateProperty_warned_mono env t key st m h
    unfold scanProps
    split
    · next e ws st' heq =>
      rw [heq] at hm
      simpa using hm
    · next isValid ws st' heq =>
      rw [heq] at hm
      simp at hm ⊢
      exact ih st' m hm

theorem scanProps_count_bound (env : EventRegistry) (t n : String)
    (hn : n ≠ "__proto__") :
    ∀ (props : List (String × JSValue)) (st : ValidatorState),
      offenderCount n (scanProps env t props st).warnings ≤
          (if n ∈ st.warnedProperties then 0 else 1) ∧
      (1 ≤ offenderCount n (scanProps env t props st).warnings →
          n ∈ (scanProps env t props st).state.warnedProperties) := by
  intro props
  induction props with
  | nil =>
    intro st
    simp [scanProps, offenderCount]
  | cons p rest ih =>
    intro st
    obtain ⟨key, v⟩ := p
    have hb := validateProperty_count_bound env t key n st hn
    have hmono := validateProperty_warned_mono env t key st n
    unfold scanProps
    split
    · next e ws st' heq =>
      rw [heq] at hb hmono
      simpa using hb
    · next isValid ws st' heq =>
      rw [heq] at hb hmono
      obtain ⟨ihr1, ihr2⟩ := ih st'
      simp only [ScanResult.warnings, ScanResult.state]
      rw [offenderCount_append]
      by_cases hin : n ∈ st.warnedProperties
      · have h1 : offenderCount n ws = 0 := by
          have := hb.1
          simp [hin] at this
          exact this
        have h2 : n ∈ st'.warnedProperties := hmono hin
        have h3 : offenderCount n (scanProps env t rest st').warnings = 0 := by
          have := ihr1
          simp [h2] at this
          exact this
        constructor
        · simp [hin, h1, h3]
        · intro hc
          exact scanProps_warned_mono env t rest st' n h2
      · by_cases hc1 : 1 ≤ offenderCount n ws
        · have h2 : n ∈ st'.warnedProperties := hb.2 hc1
          have h3 : offenderCount n (scanProps env t rest st').warnings = 0 := by
            have := ihr1
            simp [h2] at this
            exact this
          have h4 : offenderCount n ws ≤ 1 := by
            have := hb.1
            simp [hin] at this
            exact this
          constructor
          · simp [hin]; omega
          · intro hc
            exact scanProps_warned_mono env t rest st' n h2
        · have h1 : offenderCount n ws = 0 := by omega
          constructor
          · have := ihr1
            simp [hin, h1]
            split at this <;> omega
          · intro hc
            rw [h1] at hc
            simp at hc
            exact ihr2 hc

theorem scanProps_proto_count (env : EventRegistry) (t : String)
    (hp : jsLookup env.possibleRegistrationNames "__proto__" = none) :
    ∀ (props : List (String × JSValue)) (st : ValidatorState),
      offenderCount "__proto__" (scanProps env t props st).warnings = 0 := by
  intro props
  induction props with
  | nil => intro st; simp [scanProps, offenderCount]
  | cons p rest ih =>
    intro st
    obtain ⟨key, v⟩ := p
    have h1 : offenderCount "__proto__" (validateProperty env t key st).warnings = 0 := by
      by_cases hk : key = "__proto__"
      · subst hk
        rw [validateProperty_proto_nowarn env t st hp]
        simp [offenderCount]
      · exact offenderCount_zero_of_offenders hk
          (fun w hw => validateProperty_offenders env t key st w hw)
    unfold scanProps
    split
    · next e ws st' heq =>
      rw [heq] at h1
      exact h1
    · next isValid ws st' heq =>
      rw [heq] at h1
      simp only [ScanResult.warnings]
      rw [offenderCount_append]
      simp only [VPResult.warnings] at h1
      simp [h1, ih st']


theorem warnUnknownProperties_eq_scan (env : EventRegistry) (t : String)
    (props : List (String × JSValue)) (st : ValidatorState) :
    warnUnknownProperties env t props st =
      ⟨(scanProps env t props st).outcome, (scanProps env t props st).warnings,
       (scanProps env t props st).state⟩ := by
  have hu := scanProps_unknown_nil env t props st
  cases ho : (scanProps env t props st).outcome with
  | error e => simp [warnUnknownProperties, ho, hu]
  | ok u => cases u; simp [warnUnknownProperties, ho, hu]

theorem validateProperties_frame (env : EventRegistry) (t : String)
    (props : List (String × JSValue)) (st : ValidatorState) :
    (validateProperties env t props st).state.reservedProps = st.reservedProps ∧
    (validateProperties env t props st).state.properties = st.properties := by
  unfold validateProperties
  split
  · exact ⟨rfl, rfl⟩
  · rw [warnUnknownProperties_eq_scan]
    exact scanProps_frame env t props st

theorem validateProperties_warned_mono (env : EventRegistry) (t : String)
    (props : List (String × JSValue)) (st : ValidatorState) (m : String)
    (h : m ∈ st.warnedProperties) :
    m ∈ (validateProperties env t props st).state.warnedProperties := by
  unfold validateProperties
  split
  · exact h
  · rw [warnUnknownProperties_eq_scan]
    exact scanProps_warned_mono env t props st m h

theorem validateProperties_count_bound (env : EventRegistry) (t n : String)
    (hn : n ≠ "__proto__") (props : List (String × JSValue)) (st : ValidatorState) :
    offenderCount n (validateProperties env t props st).warnings ≤
        (if n ∈ st.warnedProperties then 0 else 1) ∧
    (1 ≤ offenderCount n (validateProperties env t props st).warnings →
        n ∈ (validateProperties env t props st).state.warnedProperties) := by
  unfold validateProperties
  split
  · simp [offenderCount]
  · rw [warnUnknownProperties_eq_scan]
    exact scanProps_count_bound env t n hn props st

theorem validateProperties_proto_count (env : EventRegistry) (t : String)
    (hp : jsLookup env.possibleRegistrationNames "__proto__" = none)
    (props : List (String × JSValue)) (st : ValidatorState) :
    offenderCount "__proto__" (validateProperties env t props st).warnings = 0 := by
  unfold validateProperties
  split
  · simp [offenderCount]
  · rw [warnUnknownProperties_eq_scan]
    exact scanProps_proto_count env t hp props st

theorem runCalls_warned_mono (env : EventRegistry) :
    ∀ (calls : List (String × List (String × JSValue))) (st : ValidatorState)
      (m : String), m ∈ st.warnedProperties →
      m ∈ (runCalls env calls st).2.warnedProperties := by
  intro calls
  induction calls with
  | nil => intro st m h; simpa [runCalls] using h
  | cons c rest ih =>
    intro st m h
    obtain ⟨t, props⟩ := c
    have hm := validateProperties_warned_mono env t props st m h
    simp only [runCalls]
    exact ih _ m hm

theorem runCalls_count_bound (env : EventRegistry) (n : String)
    (hn : n ≠ "__proto__") :
    ∀ (calls : List (String × List (String × JSValue))) (st : ValidatorState),
      offenderCount n (runCalls env calls st).1 ≤
        (if n ∈ st.warnedProperties then 0 else 1) := by
  intro calls
  induction calls with
  | nil => intro st; simp [runCalls, offenderCount]
  | cons c rest ih =>
    intro st
    obtain ⟨t, props⟩ := c
    have hb := validateProperties_count_bound env t n hn props st
    simp only [runCalls]
    rw [offenderCount_append]
    by_cases hin : n ∈ st.warnedProperties
    · have h1 : offenderCount n (validateProperties env t props st).warnings = 0 := by
        have := hb.1
        simp [hin] at this
        exact this
      have h2 : n ∈ (validateProperties env t props st).state.warnedProperties :=
        validateProperties_warned_mono env t props st n hin
      have h3 := ih (validateProperties env t props st).state
      simp [h2] at h3
      simp [hin, h1, h3]
    · by_cases hc1 : 1 ≤ offenderCount n (validateProperties env t props st).warnings
      · have h2 := hb.2 hc1
        have h3 := ih (validateProperties env t props st).state
        simp [h2] at h3
        have h4 : offenderCount n (validateProperties env t props st).warnings ≤ 1 := by
          have := hb.1
          simp [hin] at this
          exact this
        simp [hin]
        omega
      · have h1 : offenderCount n (validateProperties env t props st).warnings = 0 := by
          omega
        have h3 := ih (validateProperties env t props st).state
        simp [hin, h1]
        split at h3 <;> omega

theorem runCalls_proto_count (env : EventRegistry)
    (hp : jsLookup env.possibleRegistrationNames "__proto__" = none) :
    ∀ (calls : List (String × List (String × JSValue))) (st : ValidatorState),
      offenderCount "__proto__" (runCalls env calls st).1 = 0 := by
  intro calls
  induction calls with
  | nil => intro st; simp [runCalls, offenderCount]
  | cons c rest ih =>
    intro st
    obtain ⟨t, props⟩ := c
    simp only [runCalls]
    rw [offenderCount_append]
    simp [validateProperties_proto_count env t hp props st, ih]

/-! The claim theorems. -/

/-- C1: the claim states that for standard tags `validateProperty` classifies
a name as Known exactly when it is an event-registration name, a reserved
prop, or a registry property, and returns `false` (Unknown) for every other
name. The code refutes this: `validateProperty` never returns `false` for any
name whatsoever — every terminating call returns `true` (the only other
outcome is the thrown `TypeError` of the shadowed cache), because the
`if (!hasBadCasing) return true` line returns `true` before the registry or
reserved set could ever be consulted, leaving the final
`return DOMProperty.isReservedProp(name)` unreachable. -/
theorem c1_validateProperty_never_returns_false (env : EventRegistry)
    (tagName name : String) (st : ValidatorState) :
    (validateProperty env tagName name st).result = .ok true ∨
    (validateProperty env tagName name st).result = .error .typeError :=
  validateProperty_result_ok env tagName name st

/-- C2 (counterexample): the claim says a bag containing an `is` property is
never warned about; but with `is` present with the falsy value `false`, the
bypass `props.is` does not trigger, a warning for `class` is emitted, and the
cache gains both names. -/
theorem c2_counterexample :
    (validateProperties sampleEnv "div"
        [("is", JSValue.boolV false), ("class", JSValue.boolV true)]
        initialState).warnings =
      [Warning.unknownDOMProperty "class" "className"] ∧
    (validateProperties sampleEnv "div"
        [("is", JSValue.boolV false), ("class", JSValue.boolV true)]
        initialState).state.warnedProperties = ["is", "class"] := by
  constructor <;> decide

/-- C2 (amended): when the tag name contains a hyphen or the bag's `is`
property holds a truthy value, `validateProperties` emits no warning of any
kind and leaves the warned-property cache (and all other state) unchanged. -/
theorem c2_truthy_is_bypasses (env : EventRegistry) (type : String)
    (props : List (String × JSValue)) (st : ValidatorState)
    (h : (hasHyphen type || truthy (propsGet props "is")) = true) :
    validateProperties env type props st = ⟨.ok (), [], st⟩ := by
  simp [validateProperties, h]

/-- C2 (witness): a hyphenated tag concretely takes the bypass. -/
theorem c2_witness :
    (hasHyphen "x-custom" || truthy (propsGet [("foo", JSValue.numV 1)] "is")) = true ∧
    validateProperties sampleEnv "x-custom" [("foo", JSValue.numV 1)] initialState =
      ⟨.ok (), [], initialState⟩ :=
  ⟨by decide, c2_truthy_is_bypasses sampleEnv "x-custom" [("foo", JSValue.numV 1)]
      initialState (by decide)⟩

/-- C3 (counterexample): the claim says that once a name is recorded in the
warned cache, every later validation of it returns Known immediately; but
after `hasOwnProperty` is recorded (shadowing the cache's lookup method), a
later validation of that very name throws a `TypeError` instead of returning. -/
theorem c3_counterexample :
    "hasOwnProperty" ∈ (validateProperties sampleEnv "div"
        [("hasOwnProperty", JSValue.numV 1)] initialState).state.warnedProperties ∧
    (validateProperty sampleEnv "div" "hasOwnProperty"
        (validateProperties sampleEnv "div" [("hasOwnProperty", JSValue.numV 1)]
          initialState).state).result = .error .typeError := by
  constructor <;> decide

/-- C3 (amended): provided the external event-suggestion table has no
`__proto__` key, every property name is denounced as unknown or mistyped by at
most one warning across any sequence of `validateProperties` calls starting
from the initial state (a recorded name either returns Known immediately or,
once `hasOwnProperty` has been recorded, throws without warning). -/
theorem c3_warn_at_most_once (env : EventRegistry)
    (hp : jsLookup env.possibleRegistrationNames "__proto__" = none)
    (n : String) (calls : List (String × List (String × JSValue))) :
    offenderCount n (runCalls env calls initialState).1 ≤ 1 := by
  by_cases hn : n = "__proto__"
  · subst hn
    rw [runCalls_proto_count env hp calls initialState]
    omega
  · have h := runCalls_count_bound env n hn calls initialState
    have hni : n ∉ initialState.warnedProperties := by simp [initialState]
    simp [hni] at h
    exact h

/-- C3 (witness): validating `class` on two successive elements warns at most
once. -/
theorem c3_witness :
    jsLookup sampleEnv.possibleRegistrationNames "__proto__" = none ∧
    offenderCount "class"
      (runCalls sampleEnv
        [("div", [("class", JSValue.numV 1)]), ("div", [("class", JSValue.numV 1)])]
        initialState).1 ≤ 1 :=
  ⟨by decide, c3_warn_at_most_once sampleEnv (by decide) "class"
      [("div", [("class", JSValue.numV 1)]), ("div", [("class", JSValue.numV 1)])]⟩

/-- C4: the claim says any casing of a registry name (for example `classname`
or `CLASSNAME` for `className`) yields exactly one suggestion via a
lowercase-to-canonical table built from the attribute registry. The code
refutes this: the table receives nothing from the registry (the loop iterates
`DOMProperty.attributeName`, which does not exist) and the lookup uses the
original rather than the lowercased name, so neither `classname` nor
`CLASSNAME` produces any suggestion; only the five hard-coded lowercase
aliases such as `class` do. -/
theorem c4_no_case_insensitive_suggestion :
    (validateProperty sampleEnv "div" "classname" initialState).warnings = [] ∧
    (validateProperty sampleEnv "div" "CLASSNAME" initialState).warnings = [] ∧
    jsLookup possibleStandardNames "classname" = none ∧
    (validateProperty sampleEnv "div" "class" initialState).warnings =
      [Warning.unknownDOMProperty "class" "className"] := by
  refine ⟨?_, ?_, ?_, ?_⟩ <;> decide

/-- C5: the claim describes the combined `Unknown prop(s)` message for k >= 1
collected unknown props. The code refutes its premise ever holding: the scan
collects no key on any input (because `validateProperty` never returns
`false`), so the combined message is never emitted — concretely, a bag with
the unknown prop `foobarbaz` on a `div` produces no warning at all. -/
theorem c5_combined_warning_never_emitted :
    (∀ (env : EventRegistry) (t : String) (props : List (String × JSValue))
        (st : ValidatorState), (scanProps env t props st).unknownProps = []) ∧
    (validateProperties sampleEnv "div" [("foobarbaz", JSValue.numV 1)]
        initialState).warnings = [] :=
  ⟨fun env t props st => scanProps_unknown_nil env t props st, by decide⟩

/-- C6: the claim says `validateProperties` never throws, including for names
colliding with object-prototype members such as `hasOwnProperty`. The code
refutes it: a first call validating a prop named `hasOwnProperty` succeeds
but stores `true` over the cache's inherited `hasOwnProperty` method, and the
next call then throws a `TypeError`. -/
theorem c6_validateProperties_throws :
    (validateProperties sampleEnv "div" [("hasOwnProperty", JSValue.numV 1)]
        initialState).outcome = .ok () ∧
    (validateProperties sampleEnv "div" [("id", JSValue.numV 1)]
        (validateProperties sampleEnv "div" [("hasOwnProperty", JSValue.numV 1)]
          initialState).state).outcome = .error .typeError := by
  constructor <;> decide

/-- C7 (counterexample): the claim says the cache change never affects the
classification result for names other than those validated; but after the
name `hasOwnProperty` has been validated (and cached), validating the
unrelated name `id` throws instead of returning `true` as it does from the
initial state. -/
theorem c7_counterexample :
    (validateProperty sampleEnv "div" "id" initialState).result = .ok true ∧
    (validateProperty sampleEnv "div" "id"
        (validateProperties sampleEnv "div" [("hasOwnProperty", JSValue.numV 1)]
          initialState).state).result = .error .typeError ∧
    (validateProperties sampleEnv "div" [("hasOwnProperty", JSValue.numV 1)]
        initialState).state.warnedProperties = ["hasOwnProperty"] := by
  refine ⟨?_, ?_, ?_⟩ <;> decide

/-- C7 (amended): no call of `validateProperties` mutates the attribute
registry or the reserved-property set, and the warned-property cache only
grows. -/
theorem c7_frame (env : EventRegistry) (type : String)
    (props : List (String × JSValue)) (st : ValidatorState) :
    (validateProperties env type props st).state.properties = st.properties ∧
    (validateProperties env type props st).state.reservedProps = st.reservedProps ∧
    ∀ m ∈ st.warnedProperties,
      m ∈ (validateProperties env type props st).state.warnedProperties :=
  ⟨(validateProperties_frame env type props st).2,
   (validateProperties_frame env type props st).1,
   fun m hm => validateProperties_warned_mono env type props st m hm⟩

/-- C7 (witness): a concrete call preserves both tables and keeps the cached
name `id`. -/
theorem c7_frame_witness :
    (validateProperties sampleEnv "div" [("class", JSValue.numV 1)]
        exampleState).state.properties = exampleState.properties ∧
    (validateProperties sampleEnv "div" [("class", JSValue.numV 1)]
        exampleState).state.reservedProps = exampleState.reservedProps ∧
    "id" ∈ (validateProperties sampleEnv "div" [("class", JSValue.numV 1)]
        exampleState).state.warnedProperties :=
  ⟨(c7_frame sampleEnv "div" [("class", JSValue.numV 1)] exampleState).1,
   (c7_frame sampleEnv "div" [("class", JSValue.numV 1)] exampleState).2.1,
   (c7_frame sampleEnv "div" [("class", JSValue.numV 1)] exampleState).2.2 "id"
     (by decide)⟩

/-- C8: `isReservedProp` returns `true` exactly on the eleven reserved
framework property names and `false` on every other string, including
inherited object-prototype member names such as `toString`. -/
theorem c8_isReservedProp_spec :
    (∀ name : String,
        DOMProperty.isReservedProp name = true ↔
          (name = "children" ∨ name = "dangerouslySetInnerHTML" ∨ name = "key" ∨
           name = "ref" ∨ name = "autoFocus" ∨ name = "defaultValue" ∨
           name = "defaultChecked" ∨ name = "innerHTML" ∨
           name = "suppressContentEditableWarning" ∨ name = "onFocusIn" ∨
           name = "onFocusOut")) ∧
    DOMProperty.isReservedProp "toString" = false := by
  constructor
  · intro name
    simp [DOMProperty.isReservedProp, DOMProperty.isReservedPropIn,
      DOMProperty.RESERVED_PROPS]
  · decide

/-- C9 (counterexample): the claim says every examined name is recorded in
the warned cache; but validating `__proto__` from the initial state does not
return early on the cache check, returns `true`, and still leaves the cache
empty, because the JavaScript assignment `warnedProperties["__proto__"] =
true` creates no own key. -/
theorem c9_counterexample :
    (validateProperty sampleEnv "div" "__proto__" initialState).result = .ok true ∧
    (validateProperty sampleEnv "div" "__proto__" initialState).state.warnedProperties
      = [] := by
  constructor <;> decide

/-- C9 (amended): every examined name other than `__proto__` is recorded in
the warned cache by any terminating `validateProperty` call; the cache only
grows; and a repeated call with an already-recorded name returns `true`
immediately — with no warning, no state change, and a result independent of
the event registry — as long as `hasOwnProperty` has not been recorded. -/
theorem c9_cache_behavior (env : EventRegistry) (t n : String) (st : ValidatorState) :
    (n ≠ "__proto__" → ∀ b : Bool,
        (validateProperty env t n st).result = .ok b →
        n ∈ (validateProperty env t n st).state.warnedProperties) ∧
    (∀ m ∈ st.warnedProperties,
        m ∈ (validateProperty env t n st).state.warnedProperties) ∧
    (n ∈ st.warnedProperties → "hasOwnProperty" ∉ st.warnedProperties →
        validateProperty env t n st = ⟨.ok true, [], st⟩) :=
  ⟨fun hn b h => validateProperty_records env t n st hn b h,
   fun m hm => validateProperty_warned_mono env t n st m hm,
   fun h hh => validateProperty_cached env t n st h hh⟩

/-- C9 (witness): revalidating the recorded name `id` returns `true` with no
warning and no state change, and `id` stays in the cache. -/
theorem c9_witness :
    validateProperty sampleEnv "div" "id" exampleState = ⟨.ok true, [], exampleState⟩ ∧
    "id" ∈ (validateProperty sampleEnv "div" "id" exampleState).state.warnedProperties :=
  ⟨(c9_cache_behavior sampleEnv "div" "id" exampleState).2.2 (by decide) (by decide),
   (c9_cache_behavior sampleEnv "div" "id" exampleState).1 (by decide) true (by decide)⟩

/-- C10: every descriptor in the attribute registry that sets
`hasPositiveNumericValue` also sets `hasNumericValue`. -/
theorem c10_positive_numeric_implies_numeric :
    ∀ p ∈ DOMProperty.properties,
      p.2.hasPositiveNumericValue = true → p.2.hasNumericValue = true := by
  intro p hp hpos
  have hall : DOMProperty.properties.all
      (fun q => !q.2.hasPositiveNumericValue || q.2.hasNumericValue) = true := by decide
  have hq := List.all_eq_true.mp hall p hp
  simp [hpos] at hq
  exact hq

/-- C10 (witness): the `rows` descriptor carries both flags. -/
theorem c10_witness :
    ("rows", rowsInfo) ∈ DOMProperty.properties ∧ rowsInfo.hasNumericValue = true :=
  ⟨by decide,
   c10_positive_numeric_implies_numeric ("rows", rowsInfo) (by decide) (by decide)⟩
